import Mathlib

/-!
Verification of the HCS Terraform provider sources: the networking
security-groups data source (package vpc) and the compute-instance resource
(package ecs).  Each Go function relevant to the documented properties is
shallowly embedded as an executable Lean definition, keeping source names,
and the properties are settled as theorems about those definitions.
-/

namespace HcsProvider

/-- Embedding of Go `strings.Contains` on the underlying character lists:
`sub` occurs as a contiguous substring of `s` (true for the empty `sub`). -/
def listContainsSub (s sub : List Char) : Bool :=
  s.tails.any (fun t => sub.isPrefixOf t)

/-- Go `strings.Contains s sub`. -/
def stringsContains (s sub : String) : Bool :=
  listContainsSub s.data sub.data

/-- v1 security group (networking v1 `securitygroups.SecurityGroup`),
restricted to the fields the data source reads. -/
structure SecurityGroupV1 where
  ID : String
  Name : String
  Description : String
  EnterpriseProjectId : String
  deriving DecidableEq, Repr

/-- v3 security group (networking v3 `groups.SecurityGroup`),
restricted to the fields the data source reads. -/
structure SecurityGroupV3 where
  ID : String
  Name : String
  Description : String
  EnterpriseProjectId : String
  CreatedAt : String
  UpdatedAt : String
  deriving DecidableEq, Repr

/-- Embedding of `filterAvailableSecGroupsV1` (data source, v1 path),
returning the filtered groups in order.  Mirrors the Go control flow
exactly: each of the two filter loops ranges over the ORIGINAL `secGroups`
slice (as the source does), assigning its output to `secGroupsCopy`. -/
def filterAvailableSecGroupsV1 (secGroups : List SecurityGroupV1)
    (name descKey : String) : List SecurityGroupV1 :=
  let secGroupsCopy := secGroups
  let secGroupsCopy :=
    if name ≠ "" then
      secGroups.filter (fun secgroup => !(name ≠ secgroup.Name))
    else secGroupsCopy
  let secGroupsCopy :=
    if descKey ≠ "" then
      secGroups.filter (fun secgroup => stringsContains secgroup.Description descKey)
    else secGroupsCopy
  secGroupsCopy

/-- Embedding of `filterAvailableSecGroupsV3` (data source, v3 path). -/
def filterAvailableSecGroupsV3 (secGroups : List SecurityGroupV3)
    (descKey : String) : List SecurityGroupV3 :=
  let secGroupsCopy := secGroups
  let secGroupsCopy :=
    if descKey ≠ "" then
      secGroups.filter (fun secgroup => stringsContains secgroup.Description descKey)
    else secGroupsCopy
  secGroupsCopy

/-- Remote API failures, as the Go code distinguishes them:
`golangsdk.ErrDefault404` versus any other error. -/
inductive ApiError where
  | notFound404
  | other (msg : String)
  deriving DecidableEq, Repr

/-- Outcome of the security-groups data-source read. -/
inductive SecGroupsReadResult where
  | errorDiag (msg : String)
  | v3Result (groups : List SecurityGroupV3)
  | v1Result (groups : List SecurityGroupV1)
  deriving DecidableEq, Repr

/-- Embedding of `dataSourceNetworkingSecGroupsReadV1`: lists via the v1 API
(`v1List`, which may itself fail) and filters with the v1 filter. -/
def dataSourceNetworkingSecGroupsReadV1
    (v1List : Except String (List SecurityGroupV1))
    (name descKey : String) : SecGroupsReadResult :=
  match v1List with
  | Except.error e => SecGroupsReadResult.errorDiag e
  | Except.ok allSecGroups =>
      SecGroupsReadResult.v1Result (filterAvailableSecGroupsV1 allSecGroups name descKey)

/-- Embedding of `dataSourceNetworkingSecGroupsRead`: attempts the v3 List
(`v3List`); on `ErrDefault404` it falls back to the v1 read path, on any
other failure it surfaces the error, and on success it filters the v3
results by description. -/
def dataSourceNetworkingSecGroupsRead
    (v3List : Except ApiError (List SecurityGroupV3))
    (v1List : Except String (List SecurityGroupV1))
    (name descKey : String) : SecGroupsReadResult :=
  match v3List with
  | Except.error ApiError.notFound404 =>
      dataSourceNetworkingSecGroupsReadV1 v1List name descKey
  | Except.error (ApiError.other msg) => SecGroupsReadResult.errorDiag msg
  | Except.ok allSecGroups =>
      SecGroupsReadResult.v3Result (filterAvailableSecGroupsV3 allSecGroups descKey)

/-- Embedding of `normalizeChargingMode` (compute instance, Read path):
maps the remote metadata billing-mode code to the declarative value. -/
def normalizeChargingMode (mode : String) : String :=
  match mode with
  | "1" => "prePaid"
  | "2" => "spot"
  | _ => "postPaid"

/-- Provider-level configuration (`config.Config`), restricted to the
field the validation reads. -/
structure HcsConfig where
  UserID : String
  deriving DecidableEq, Repr

/-- The subset of the compute-instance configuration (`d`) that the
pre-create validation and billing extend-parameter construction read.
Terraform `GetOk` on a string is "set" iff non-empty, and on an int iff
non-zero; absent values are the zero ("" or 0) here. -/
structure CreateConfig where
  charging_mode : String
  key_pair : String
  user_id : String
  spot_maximum_price : String
  spot_duration : Nat
  spot_duration_count : Nat
  period_unit : String
  period : Nat
  auto_renew : String
  /-- The value `common.GetAutoPay(d)` (package common, outside the sources
  under study) resolves for the `auto_pay` attribute. -/
  auto_pay_resolved : String
  deriving DecidableEq, Repr

/-- Embedding of `getOpSvcUserID`: the `user_id` attribute when set
(`GetOk`: non-empty), otherwise the provider-level `UserID`. -/
def getOpSvcUserID (user_id : String) (conf : HcsConfig) : String :=
  if user_id ≠ "" then user_id else conf.UserID

/-- Embedding of `validateComputeInstanceConfig`: the only check is that a
`prePaid` instance logged in with an SSH key pair has a non-empty
operation-service user id.  Returns the error message, or `none`. -/
def validateComputeInstanceConfig (c : CreateConfig) (conf : HcsConfig) :
    Option String :=
  let hasSSH := c.key_pair ≠ ""
  if c.charging_mode = "prePaid" ∧ hasSSH then
    if getOpSvcUserID c.user_id conf = "" then
      some ("user_id must be specified when charging_mode is set to prePaid and " ++
        "the ECS is logged in using an SSH key")
    else none
  else none

/-- Embedding of `getSpotDurationCount`: the `spot_duration_count`
attribute when set (`GetOk`: non-zero), otherwise 1. -/
def getSpotDurationCount (spot_duration_count : Nat) : Nat :=
  if spot_duration_count ≠ 0 then spot_duration_count else 1

/-- `cloudservers.ServerExtendParam`, restricted to the fields the create
handler writes; the default value is Go's zero value. -/
structure ServerExtendParam where
  ChargingMode : String := ""
  PeriodType : String := ""
  PeriodNum : Nat := 0
  IsAutoRenew : String := ""
  IsAutoPay : String := ""
  MarketType : String := ""
  SpotPrice : String := ""
  InterruptionPolicy : String := ""
  SpotDurationHours : Nat := 0
  SpotDurationCount : Nat := 0
  deriving DecidableEq, Repr

/-- Modelled from the spec: `common.ValidatePrePaidChargeInfo` (package
common, outside the sources under study) requires a non-empty period unit
and a non-zero period count for pre-paid billing. -/
def validatePrePaidChargeInfo (c : CreateConfig) : Option String :=
  if c.period_unit = "" ∨ c.period = 0 then
    some ("both period_unit and period are required when charging_mode is prePaid")
  else none

/-- Embedding of the billing branch of `resourceComputeInstanceCreate`
(construction of `extendParam`): pre-paid fills the period/renew fields
(after the period validation), spot fills the market fields — passing
`spot_maximum_price` through UNVALIDATED — and any other mode leaves the
zero value.  Returns a validation error, or the `ExtendParam` attached to
the create request (`none` when it stayed the zero value). -/
def buildServerExtendParam (c : CreateConfig) :
    Except String (Option ServerExtendParam) :=
  if c.charging_mode = "prePaid" then
    match validatePrePaidChargeInfo c with
    | some msg => Except.error msg
    | none =>
        Except.ok (some ({
          ChargingMode := c.charging_mode,
          PeriodType := c.period_unit, PeriodNum := c.period,
          IsAutoRenew := c.auto_renew, IsAutoPay := c.auto_pay_resolved }))
  else
    if c.charging_mode = "spot" then
      let base : ServerExtendParam :=
        { MarketType := "spot", SpotPrice := c.spot_maximum_price }
      let extendParam :=
        if c.spot_duration ≠ 0 then
          { base with
            InterruptionPolicy := "immediate",
            SpotDurationHours := c.spot_duration,
            SpotDurationCount := getSpotDurationCount c.spot_duration_count }
        else base
      Except.ok (if extendParam = {} then none else some extendParam)
    else
      Except.ok (if ({} : ServerExtendParam) = {} then none else some {})

/-- Embedding of the pre-remote-call portion of
`resourceComputeInstanceCreate` on the ECS (non-deprecated) path, with the
image and flavor taken as already resolved (their lookup sits between the
two modelled steps and is orthogonal to billing validation):
`validateComputeInstanceConfig` runs first, before any remote create call;
then the billing extend parameter is built as above.  An `ok` value means
the remote create call is issued with that `ExtendParam`. -/
def resourceComputeInstanceCreateModel (c : CreateConfig) (conf : HcsConfig) :
    Except String (Option ServerExtendParam) :=
  match validateComputeInstanceConfig c conf with
  | some msg => Except.error msg
  | none => buildServerExtendParam c

/-- The subset of the compute-instance state that the pre-paid delete path
reads.  `bandwidth_id` is `bandwidth.0.id`; `GetOk` on it is "set" iff it
is non-empty. -/
structure DeleteConfig where
  id : String
  delete_eip_on_termination : Bool
  public_ip : String
  eip_type : String
  bandwidth_id : String
  deriving DecidableEq, Repr

/-- Embedding of `shouldUnsubscribeEIP`: the attached EIP is unsubscribed
together with the instance iff deletion of the EIP is requested, a public
IP and an EIP type are present, and no shared bandwidth id is set. -/
def shouldUnsubscribeEIP (d : DeleteConfig) : Bool :=
  let deleteEIP := d.delete_eip_on_termination
  let eipAddr := d.public_ip
  let eipType := d.eip_type
  let sharebw := d.bandwidth_id ≠ ""
  deleteEIP && eipAddr ≠ "" && eipType ≠ "" && !sharebw

/-- Embedding of `calcUnsubscribeResources`: the resource ids passed to the
unsubscribe call, starting from the instance id and appending the id of the
attached EIP (looked up by its address via `getEipID`, which may fail) when
`shouldUnsubscribeEIP` holds. -/
def calcUnsubscribeResources (d : DeleteConfig)
    (getEipID : String → Except String String) : Except String (List String) :=
  let mainResources := [d.id]
  if shouldUnsubscribeEIP d then
    match getEipID d.public_ip with
    | Except.error e => Except.error e
    | Except.ok eipID => Except.ok (mainResources ++ [eipID])
  else
    Except.ok mainResources

/-- Server fault detail (`cloudservers.CloudServer.Fault`). -/
structure ServerFault where
  Code : Int
  Message : String
  deriving DecidableEq, Repr

/-- `cloudservers.CloudServer`, restricted to the fields the read and
polling paths inspect. -/
structure CloudServer where
  Status : String
  Fault : ServerFault
  deriving DecidableEq, Repr

/-- Outcome of the compute-instance Read handler's deletion handling. -/
inductive ReadOutcome where
  | cleared
  | populated (server : CloudServer)
  | errorDiag (msg : String)
  deriving DecidableEq, Repr

/-- Modelled from the spec: `common.CheckDeletedDiag` (package common,
outside the sources under study) clears the resource id and returns no
error when the fetch failed with a 404-class error, and surfaces every
other error. -/
def checkDeletedDiag (e : ApiError) : ReadOutcome :=
  match e with
  | ApiError.notFound404 => ReadOutcome.cleared
  | ApiError.other msg => ReadOutcome.errorDiag msg

/-- Embedding of the head of `resourceComputeInstanceRead`: a failed fetch
goes through `CheckDeletedDiag`; a successful fetch whose status is
"DELETED" clears the id and returns nil; otherwise the handler proceeds to
populate the attributes from the server. -/
def resourceComputeInstanceReadModel (fetch : Except ApiError CloudServer) :
    ReadOutcome :=
  match fetch with
  | Except.error e => checkDeletedDiag e
  | Except.ok server =>
      if server.Status = "DELETED" then ReadOutcome.cleared
      else ReadOutcome.populated server

/-- Embedding of `ServerV1StateRefreshFunc`: one poll step.  Returns the
observed status together with an optional error: a 404 on the fetch is
reported as status "DELETED" with no error, any other fetch failure is an
error, a fetched "ERROR" status is an error carrying the fault code and
message, and any other status is returned as-is. -/
def ServerV1StateRefreshFunc (fetch : Except ApiError CloudServer) :
    String × Option String :=
  match fetch with
  | Except.error ApiError.notFound404 => ("DELETED", none)
  | Except.error (ApiError.other msg) => ("", some msg)
  | Except.ok s =>
      if s.Status = "ERROR" then
        (s.Status, some ("error code: " ++ toString s.Fault.Code ++
          ", message: " ++ s.Fault.Message))
      else (s.Status, none)

/-- Result of waiting for a server target state. -/
inductive WaitResult where
  | success (status : String)
  | refreshError (err : String)
  | timedOut
  deriving DecidableEq, Repr

/-- Modelled from the spec: the generic fixed-interval polling helper
(`resource.StateChangeConf`, external SDK) behind
`waitForServerTargetState`, with the fixed-interval clock abstracted into
the list of successive fetch outcomes: at each step it invokes the refresh
function; a refresh error is a terminal failure, a status in the target set
is success, and exhausting the fetches (the caller-supplied timeout) is a
terminal failure. -/
def waitForServerTargetState (fetches : List (Except ApiError CloudServer))
    (target : List String) : WaitResult :=
  match fetches with
  | [] => WaitResult.timedOut
  | f :: rest =>
      match ServerV1StateRefreshFunc f with
      | (_, some e) => WaitResult.refreshError e
      | (status, none) =>
          if target.contains status then WaitResult.success status
          else waitForServerTargetState rest target

/-- One sub-update of `resourceComputeInstanceUpdate`: whether the watched
attribute(s) changed, and the outcome of the remote call(s) it issues when
they did (a sub-update that issues several remote calls is collapsed to one
outcome, failure meaning its first failing call's error). -/
structure UpdateStep where
  changed : Bool
  callResult : Except String Unit
  deriving Repr

/-- Embedding of the straight-line body of `resourceComputeInstanceUpdate`:
run the sub-updates in order from index `base`; a sub-update whose
attributes did not change issues no remote call; the first failing
sub-update ends the sequence with its error.  Returns the indices of the
sub-updates whose remote calls were issued, and the overall outcome. -/
def runUpdateStepsFrom (base : Nat) :
    List UpdateStep → List Nat × Except String Unit
  | [] => ([], Except.ok ())
  | s :: rest =>
      if s.changed then
        match s.callResult with
        | Except.error e => ([base], Except.error e)
        | Except.ok _ =>
            let r := runUpdateStepsFrom (base + 1) rest
            (base :: r.1, r.2)
      else runUpdateStepsFrom (base + 1) rest

/-- The twelve sub-updates of `resourceComputeInstanceUpdate`, in source
order: name/description, metadata, agency/agent-list metadata, security
groups, admin password, flavor resize, network source/destination checks,
tags, system-disk resize, key pair, power action, auto-renew. -/
structure UpdateInput where
  nameDescription : UpdateStep
  metadata : UpdateStep
  agency : UpdateStep
  securityGroups : UpdateStep
  adminPass : UpdateStep
  flavor : UpdateStep
  network : UpdateStep
  tags : UpdateStep
  systemDiskSize : UpdateStep
  keyPair : UpdateStep
  powerAction : UpdateStep
  autoRenew : UpdateStep
  deriving Repr

/-- The sub-updates of `resourceComputeInstanceUpdate` as a list in source
order. -/
def updateSteps (u : UpdateInput) : List UpdateStep :=
  [u.nameDescription, u.metadata, u.agency, u.securityGroups, u.adminPass,
   u.flavor, u.network, u.tags, u.systemDiskSize, u.keyPair, u.powerAction,
   u.autoRenew]

/-- Embedding of `resourceComputeInstanceUpdate`: the sub-updates run in
source order, aborting at the first failure. -/
def resourceComputeInstanceUpdateModel (u : UpdateInput) :
    List Nat × Except String Unit :=
  runUpdateStepsFrom 0 (updateSteps u)

/-- A network interface of the created instance, as the post-create loop
sees it (the `port` entry of the flattened network). -/
structure NicInfo where
  port : String
  deriving DecidableEq, Repr

/-- Embedding of `disableSourceDestCheck`: the port update issued, as the
pair of the port id and the allowed-address-pairs written to it. -/
def disableSourceDestCheck (portID : String) : String × List String :=
  (portID, ["1.1.1.1/0"])

/-- The loop at the end of `resourceComputeInstanceCreate` over the
flattened networks paired with the configured `source_dest_check` flags
(the source indexes `sourceDestChecks` by the position in `networks`; the
two lists have the same length whenever the source's indexing is in
bounds).  A nic with an empty port is skipped; a nic whose flag is false
gets the disabling port update. -/
def sourceDestCheckLoop : List NicInfo → List Bool → List (String × List String)
  | [], _ => []
  | _, [] => []
  | nic :: nics, check :: checks =>
      let rest := sourceDestCheckLoop nics checks
      if nic.port = "" then rest
      else if check = false then disableSourceDestCheck nic.port :: rest
      else rest

/-- Embedding of the source/destination-check handling in
`resourceComputeInstanceCreate`: when some configured network has
`source_dest_check` false (the `flag` in the source), the instance's
networks are fetched and the loop above issues the port updates; otherwise
no port update is issued.  Returns the issued port updates. -/
def createSourceDestCheckUpdates (sourceDestChecks : List Bool)
    (networks : List NicInfo) : List (String × List String) :=
  if sourceDestChecks.any (fun b => !b) then
    sourceDestCheckLoop networks sourceDestChecks
  else []

/-! Concrete inputs used by the evaluation and witness theorems below. -/

/-- A v1 security group whose name does not match the name filter used
below but whose description contains the description key. -/
def secGroupOther : SecurityGroupV1 :=
  { ID := "sg-1", Name := "other", Description := "contains key",
    EnterpriseProjectId := "" }

/-- A spot-mode configuration with an empty `spot_maximum_price`. -/
def spotCreateConfig : CreateConfig :=
  { charging_mode := "spot", key_pair := "", user_id := "",
    spot_maximum_price := "", spot_duration := 0, spot_duration_count := 0,
    period_unit := "", period := 0, auto_renew := "", auto_pay_resolved := "" }

/-- A pre-paid configuration with a key pair and no user id anywhere. -/
def prePaidCreateConfig : CreateConfig :=
  { charging_mode := "prePaid", key_pair := "kp-1", user_id := "",
    spot_maximum_price := "", spot_duration := 0, spot_duration_count := 0,
    period_unit := "month", period := 1, auto_renew := "false",
    auto_pay_resolved := "true" }

/-- A provider configuration with no provider-level user id. -/
def emptyUserConf : HcsConfig := { UserID := "" }

/-- A pre-paid instance with an eligible non-shared EIP attached. -/
def deleteConfigEip : DeleteConfig :=
  { id := "i-1", delete_eip_on_termination := true, public_ip := "1.2.3.4",
    eip_type := "5_bgp", bandwidth_id := "" }

/-- An EIP-id lookup that always succeeds with a fixed id. -/
def getEipIDFixed : String → Except String String :=
  fun _ => Except.ok ("eip-1")

/-- An unchanged sub-update. -/
def stepNoChange : UpdateStep := { changed := false, callResult := Except.ok () }

/-- An update in which the first sub-update (name/description) changed and
its remote call fails; nothing else changed. -/
def updateInputFirstFails : UpdateInput :=
  { nameDescription := { changed := true, callResult := Except.error ("update failed") },
    metadata := stepNoChange, agency := stepNoChange,
    securityGroups := stepNoChange, adminPass := stepNoChange,
    flavor := stepNoChange, network := stepNoChange, tags := stepNoChange,
    systemDiskSize := stepNoChange, keyPair := stepNoChange,
    powerAction := stepNoChange, autoRenew := stepNoChange }

/-- A server in the "ERROR" state with a fault recorded. -/
def serverInError : CloudServer :=
  { Status := "ERROR", Fault := { Code := 123, Message := "disk failure" } }

/-! Theorems -/

/-- C1: evaluation at the failing input.  With a non-empty name filter and
a non-empty description filter, `filterAvailableSecGroupsV1` returns a
group whose name does NOT equal the name filter (the description loop
ranges over the original slice, discarding the name filter's output), so
the two filters do not compose as a conjunction. -/
theorem filterAvailableSecGroupsV1_drops_name_filter :
    filterAvailableSecGroupsV1 [secGroupOther] ("target") ("key") = [secGroupOther]
    ∧ secGroupOther.Name ≠ ("target") := by
  constructor
  · rfl
  · decide

/-- C9: `normalizeChargingMode` maps "1" to "prePaid", "2" to "spot", and
every other string (including the empty string) to "postPaid". -/
theorem normalizeChargingMode_spec (mode : String) :
    normalizeChargingMode mode =
      if mode = "1" then "prePaid"
      else if mode = "2" then "spot"
      else "postPaid" := by
  unfold normalizeChargingMode
  split
  · simp
  · simp
  · rename_i h1 h2
    rw [if_neg h1, if_neg h2]

/-- C4: when the v3 List call fails with a 404-class error the
security-groups data-source read runs the legacy v1 listing path, whose
successful results are filtered by the v1 filter; every non-404 v3 failure
is surfaced as an error. -/
theorem dataSourceNetworkingSecGroupsRead_fallback
    (v1List : Except String (List SecurityGroupV1))
    (gs : List SecurityGroupV1) (name descKey msg : String)
    (h : v1List = Except.ok gs) :
    dataSourceNetworkingSecGroupsRead (Except.error ApiError.notFound404)
        v1List name descKey
      = SecGroupsReadResult.v1Result (filterAvailableSecGroupsV1 gs name descKey)
    ∧ dataSourceNetworkingSecGroupsRead (Except.error (ApiError.other msg))
        v1List name descKey
      = SecGroupsReadResult.errorDiag msg := by
  subst h
  exact ⟨rfl, rfl⟩

/-- C4 witness: concrete instantiation of the fallback theorem. -/
theorem dataSourceNetworkingSecGroupsRead_fallback_witness :
    dataSourceNetworkingSecGroupsRead (Except.error ApiError.notFound404)
        (Except.ok [secGroupOther]) ("n") ("d")
      = SecGroupsReadResult.v1Result
          (filterAvailableSecGroupsV1 [secGroupOther] ("n") ("d"))
    ∧ dataSourceNetworkingSecGroupsRead (Except.error (ApiError.other ("boom")))
        (Except.ok [secGroupOther]) ("n") ("d")
      = SecGroupsReadResult.errorDiag ("boom") :=
  dataSourceNetworkingSecGroupsRead_fallback (Except.ok [secGroupOther])
    [secGroupOther] ("n") ("d") ("boom") rfl

/-- C5: when the remote fetch reports the instance deleted — either a
404-class error or a successful fetch whose status is "DELETED" — the Read
handler clears the resource id and returns without error. -/
theorem resourceComputeInstanceRead_deleted_clears_identity
    (fetch : Except ApiError CloudServer)
    (h : fetch = Except.error ApiError.notFound404 ∨
      ∃ s, fetch = Except.ok s ∧ s.Status = "DELETED") :
    resourceComputeInstanceReadModel fetch = ReadOutcome.cleared := by
  rcases h with h | ⟨s, hs, hstat⟩
  · subst h; rfl
  · subst hs
    simp [resourceComputeInstanceReadModel, hstat]

/-- C5 witness: concrete instantiation at a 404 fetch. -/
theorem resourceComputeInstanceRead_deleted_witness :
    resourceComputeInstanceReadModel (Except.error ApiError.notFound404)
      = ReadOutcome.cleared :=
  resourceComputeInstanceRead_deleted_clears_identity
    (Except.error ApiError.notFound404) (Or.inl rfl)

/-- `shouldUnsubscribeEIP` as a proposition. -/
theorem shouldUnsubscribeEIP_iff (d : DeleteConfig) :
    shouldUnsubscribeEIP d = true ↔
      (d.delete_eip_on_termination = true ∧ d.public_ip ≠ "" ∧
        d.eip_type ≠ "" ∧ d.bandwidth_id = "") := by
  unfold shouldUnsubscribeEIP
  simp [Bool.and_eq_true, and_assoc]

/-- C3: for a pre-paid delete whose EIP-id lookup succeeds, the resource
ids passed to the unsubscribe call are the instance id plus the attached
EIP's id, the latter included iff `delete_eip_on_termination` is true,
`public_ip` and `eip_type` are non-empty, and no shared bandwidth id is
set. -/
theorem calcUnsubscribeResources_spec (d : DeleteConfig)
    (getEipID : String → Except String String) (eipID : String)
    (h : getEipID d.public_ip = Except.ok eipID) :
    calcUnsubscribeResources d getEipID =
      Except.ok (if d.delete_eip_on_termination = true ∧ d.public_ip ≠ "" ∧
          d.eip_type ≠ "" ∧ d.bandwidth_id = ""
        then [d.id, eipID] else [d.id]) := by
  unfold calcUnsubscribeResources
  by_cases hc : shouldUnsubscribeEIP d = true
  · rw [if_pos hc, h, if_pos ((shouldUnsubscribeEIP_iff d).mp hc)]
    rfl
  · rw [if_neg hc, if_neg (fun hp => hc ((shouldUnsubscribeEIP_iff d).mpr hp))]

/-- C3 witness: concrete instantiation with an eligible EIP attached. -/
theorem calcUnsubscribeResources_witness :
    calcUnsubscribeResources deleteConfigEip getEipIDFixed =
      Except.ok (if deleteConfigEip.delete_eip_on_termination = true ∧
          deleteConfigEip.public_ip ≠ "" ∧ deleteConfigEip.eip_type ≠ "" ∧
          deleteConfigEip.bandwidth_id = ""
        then [deleteConfigEip.id, "eip-1"] else [deleteConfigEip.id]) :=
  calcUnsubscribeResources_spec deleteConfigEip getEipIDFixed ("eip-1") rfl

/-- C2 counterexample: with `charging_mode` "spot" and an empty
`spot_maximum_price`, the Create handler raises NO validation error — it
proceeds to the remote create call with the empty spot price passed
through in the extend parameter's `SpotPrice` field. -/
theorem create_spot_empty_price_not_validated :
    resourceComputeInstanceCreateModel spotCreateConfig emptyUserConf =
      Except.ok (some ({ MarketType := "spot", SpotPrice := "" })) := by
  rfl

/-- C2 (amended): if `charging_mode` is "prePaid" with a key pair set and
the operation-service user id (the `user_id` attribute, falling back to
the provider-level user id) is empty, the Create handler returns a
validation error before issuing any remote create call. -/
theorem create_prepaid_keypair_requires_user_id (c : CreateConfig)
    (conf : HcsConfig) (h1 : c.charging_mode = "prePaid")
    (h2 : c.key_pair ≠ "") (h3 : getOpSvcUserID c.user_id conf = "") :
    ∃ msg, resourceComputeInstanceCreateModel c conf = Except.error msg := by
  refine ⟨"user_id must be specified when charging_mode is set to prePaid and " ++
    "the ECS is logged in using an SSH key", ?_⟩
  unfold resourceComputeInstanceCreateModel validateComputeInstanceConfig
  simp [h1, h2, h3]

/-- C2 witness: concrete instantiation of the amended theorem. -/
theorem create_prepaid_keypair_requires_user_id_witness :
    ∃ msg, resourceComputeInstanceCreateModel prePaidCreateConfig emptyUserConf
      = Except.error msg :=
  create_prepaid_keypair_requires_user_id prePaidCreateConfig emptyUserConf
    rfl (by decide) rfl

/-- Helper for the update sequencing: if the sub-update at position `k`
changed and its remote call fails, while every earlier changed sub-update's
call succeeds, then the run from any base index returns that error and
issues no call past position `k`. -/
theorem runUpdateStepsFrom_abort (steps : List UpdateStep) :
    ∀ (base k : Nat) (s : UpdateStep) (e : String),
      steps.get? k = some s → s.changed = true →
      s.callResult = Except.error e →
      (∀ j, j < k → ∀ sj, steps.get? j = some sj → sj.changed = true →
        sj.callResult = Except.ok ()) →
      (runUpdateStepsFrom base steps).2 = Except.error e ∧
        ∀ i ∈ (runUpdateStepsFrom base steps).1, i ≤ base + k := by
  induction steps with
  | nil =>
      intro base k s e hk
      simp at hk
  | cons s0 rest ih =>
      intro base k s e hk hc he hprev
      match k with
      | 0 =>
          rw [List.get?_cons_zero] at hk
          injection hk with hs0
          subst hs0
          simp [runUpdateStepsFrom, hc, he]
      | Nat.succ k' =>
          rw [List.get?_cons_succ] at hk
          have hprev' : ∀ j, j < k' → ∀ sj, rest.get? j = some sj →
              sj.changed = true → sj.callResult = Except.ok () := by
            intro j hj sj hsj hcj
            exact hprev (j + 1) (Nat.succ_lt_succ hj) sj
              (by rw [List.get?_cons_succ]; exact hsj) hcj
          have hrec := ih (base + 1) k' s e hk hc he hprev'
          by_cases hch : s0.changed = true
          · have hok : s0.callResult = Except.ok () :=
              hprev 0 (Nat.succ_pos k') s0 rfl hch
            refine ⟨?_, ?_⟩
            · simp [runUpdateStepsFrom, hch, hok]
              exact hrec.1
            · intro i hi
              simp [runUpdateStepsFrom, hch, hok] at hi
              rcases hi with hi | hi
              · omega
              · have := hrec.2 i hi
                omega
          · refine ⟨?_, ?_⟩
            · simp [runUpdateStepsFrom, hch]
              exact hrec.1
            · intro i hi
              simp [runUpdateStepsFrom, hch] at hi
              have := hrec.2 i hi
              omega

/-- C6: in `resourceComputeInstanceUpdate`, if the sub-update at position
`k` (in the source order of the twelve sub-updates) changed and its remote
call fails, while every earlier changed sub-update succeeds, then the
handler returns that first error and issues no remote call for any later
changed field (every issued call has index at most `k`); nothing is rolled
back — the earlier calls stay issued. -/
theorem resourceComputeInstanceUpdate_aborts_on_first_failure
    (u : UpdateInput) (k : Nat) (s : UpdateStep) (e : String)
    (hk : (updateSteps u).get? k = some s) (hc : s.changed = true)
    (he : s.callResult = Except.error e)
    (hprev : ∀ j, j < k → ∀ sj, (updateSteps u).get? j = some sj →
      sj.changed = true → sj.callResult = Except.ok ()) :
    (resourceComputeInstanceUpdateModel u).2 = Except.error e ∧
      ∀ i ∈ (resourceComputeInstanceUpdateModel u).1, i ≤ k := by
  have h := runUpdateStepsFrom_abort (updateSteps u) 0 k s e hk hc he hprev
  simpa [resourceComputeInstanceUpdateModel] using h

/-- C6 witness: concrete instantiation where the first sub-update fails. -/
theorem resourceComputeInstanceUpdate_aborts_witness :
    (resourceComputeInstanceUpdateModel updateInputFirstFails).2 =
        Except.error ("update failed") ∧
      ∀ i ∈ (resourceComputeInstanceUpdateModel updateInputFirstFails).1,
        i ≤ 0 :=
  resourceComputeInstanceUpdate_aborts_on_first_failure updateInputFirstFails 0
    ({ changed := true, callResult := Except.error ("update failed") })
    ("update failed") rfl rfl rfl
    (fun j hj => absurd hj (Nat.not_lt_zero j))

/-- Helper: a nic at a position where the configured check is false and the
port is non-empty contributes its disabling port update to the loop. -/
theorem sourceDestCheckLoop_mem_intro :
    ∀ (networks : List NicInfo) (checks : List Bool) (i : Nat) (nic : NicInfo),
      networks.get? i = some nic → checks.get? i = some false →
      nic.port ≠ "" →
      (nic.port, ["1.1.1.1/0"]) ∈ sourceDestCheckLoop networks checks := by
  intro networks
  induction networks with
  | nil =>
      intro checks i nic h
      simp at h
  | cons n ns ih =>
      intro checks i nic hn hc hp
      cases checks with
      | nil => simp at hc
      | cons c cs =>
          match i with
          | 0 =>
              rw [List.get?_cons_zero] at hn hc
              injection hn with hn
              injection hc with hc
              subst hn
              subst hc
              simp [sourceDestCheckLoop, hp, disableSourceDestCheck]
          | Nat.succ i' =>
              rw [List.get?_cons_succ] at hn hc
              have hmem := ih cs i' nic hn hc hp
              unfold sourceDestCheckLoop
              by_cases h1 : n.port = ""
              · simpa [h1] using hmem
              · by_cases h2 : c = false
                · simp [h1, h2]
                  right
                  exact hmem
                · simp [h1, h2]
                  exact hmem

/-- Helper: every port update the loop issues comes from a position whose
configured check is false and whose port is non-empty, and writes the
single allowed-address-pair "1.1.1.1/0". -/
theorem sourceDestCheckLoop_mem_elim :
    ∀ (networks : List NicInfo) (checks : List Bool) (pr : String × List String),
      pr ∈ sourceDestCheckLoop networks checks →
      ∃ i nic, networks.get? i = some nic ∧ checks.get? i = some false ∧
        nic.port ≠ "" ∧ pr = (nic.port, ["1.1.1.1/0"]) := by
  intro networks
  induction networks with
  | nil =>
      intro checks pr h
      cases checks <;> simp [sourceDestCheckLoop] at h
  | cons n ns ih =>
      intro checks pr h
      cases checks with
      | nil => simp [sourceDestCheckLoop] at h
      | cons c cs =>
          unfold sourceDestCheckLoop at h
          by_cases h1 : n.port = ""
          · rw [if_pos h1] at h
            obtain ⟨i, nic, h2, h3, h4, h5⟩ := ih cs pr h
            exact ⟨i + 1, nic, by simpa using h2, by simpa using h3, h4, h5⟩
          · rw [if_neg h1] at h
            by_cases h2 : c = false
            · rw [if_pos h2] at h
              rcases List.mem_cons.mp h with h3 | h3
              · refine ⟨0, n, rfl, ?_, h1, ?_⟩
                · rw [h2]; rfl
                · simpa [disableSourceDestCheck] using h3
              · obtain ⟨i, nic, h4, h5, h6, h7⟩ := ih cs pr h3
                exact ⟨i + 1, nic, by simpa using h4, by simpa using h5, h6, h7⟩
            · rw [if_neg h2] at h
              obtain ⟨i, nic, h4, h5, h6, h7⟩ := ih cs pr h
              exact ⟨i + 1, nic, by simpa using h4, by simpa using h5, h6, h7⟩

/-- C7: after creation, the port update disabling the source/destination
check — setting the port's allowed-address-pairs to the single entry
"1.1.1.1/0" — is issued exactly for the (non-empty) ports of the networks
configured with `source_dest_check` false; networks with the check true
receive no port update. -/
theorem createSourceDestCheckUpdates_spec (sourceDestChecks : List Bool)
    (networks : List NicInfo)
    (_hlen : networks.length = sourceDestChecks.length) :
    (∀ i nic, networks.get? i = some nic →
      sourceDestChecks.get? i = some false → nic.port ≠ "" →
      (nic.port, ["1.1.1.1/0"]) ∈
        createSourceDestCheckUpdates sourceDestChecks networks)
    ∧ ∀ pr ∈ createSourceDestCheckUpdates sourceDestChecks networks,
        ∃ i nic, networks.get? i = some nic ∧
          sourceDestChecks.get? i = some false ∧
          pr = (nic.port, ["1.1.1.1/0"]) := by
  unfold createSourceDestCheckUpdates
  by_cases hf : sourceDestChecks.any (fun b => !b) = true
  · rw [if_pos hf]
    constructor
    · intro i nic hn hc hp
      exact sourceDestCheckLoop_mem_intro networks sourceDestChecks i nic hn hc hp
    · intro pr hpr
      obtain ⟨i, nic, h1, h2, _, h4⟩ :=
        sourceDestCheckLoop_mem_elim networks sourceDestChecks pr hpr
      exact ⟨i, nic, h1, h2, h4⟩
  · rw [if_neg hf]
    constructor
    · intro i nic _ hc _
      have hfalse : false ∈ sourceDestChecks := List.get?_mem hc
      have hall := List.any_eq_false.mp (Bool.not_eq_true _ ▸ hf)
      have hbad := hall false hfalse
      simp at hbad
    · intro pr hpr
      simp at hpr

/-- C7 witness: concrete instantiation with two networks, the first with
the check disabled. -/
theorem createSourceDestCheckUpdates_witness :
    ("port-1", ["1.1.1.1/0"]) ∈
      createSourceDestCheckUpdates [false, true] [⟨"port-1"⟩, ⟨"port-2"⟩] :=
  (createSourceDestCheckUpdates_spec [false, true] [⟨"port-1"⟩, ⟨"port-2"⟩]
    rfl).1 0 ⟨"port-1"⟩ rfl rfl (by decide)

/-- C8: one poll step of the server state poller — a fetched "ERROR"
status is a terminal failure whose error carries the server's fault code
and message; a fetched status in the caller's target set is success; and
exhausting the caller-supplied timeout (the fetch budget) is a terminal
failure. -/
theorem waitForServerTargetState_step_spec (f : Except ApiError CloudServer)
    (rest : List (Except ApiError CloudServer)) (target : List String)
    (s : CloudServer) (hf : f = Except.ok s) :
    (s.Status = "ERROR" →
      waitForServerTargetState (f :: rest) target =
        WaitResult.refreshError ("error code: " ++ toString s.Fault.Code ++
          ", message: " ++ s.Fault.Message))
    ∧ (s.Status ≠ "ERROR" → target.contains s.Status = true →
        waitForServerTargetState (f :: rest) target =
          WaitResult.success s.Status)
    ∧ waitForServerTargetState [] target = WaitResult.timedOut := by
  subst hf
  refine ⟨?_, ?_, rfl⟩
  · intro he
    simp [waitForServerTargetState, ServerV1StateRefreshFunc, he]
  · intro hne ht
    have ht2 : s.Status ∈ target := by simpa using ht
    simp [waitForServerTargetState, ServerV1StateRefreshFunc, hne, ht2]

/-- C8 witness: concrete instantiation at a server in the "ERROR" state. -/
theorem waitForServerTargetState_step_witness :
    waitForServerTargetState [Except.ok serverInError] [("ACTIVE")] =
      WaitResult.refreshError ("error code: " ++
        toString serverInError.Fault.Code ++ ", message: " ++
        serverInError.Fault.Message) :=
  (waitForServerTargetState_step_spec (Except.ok serverInError) []
    [("ACTIVE")] serverInError rfl).1 rfl

/-- C10: when the remote GET fails with a 404-class error the state
refresh function reports status "DELETED" with no error, so a wait whose
target set holds "DELETED" succeeds on that step. -/
theorem serverV1StateRefresh_404_deleted
    (rest : List (Except ApiError CloudServer)) (target : List String)
    (ht : target.contains ("DELETED") = true) :
    ServerV1StateRefreshFunc (Except.error ApiError.notFound404) =
      (("DELETED"), none)
    ∧ waitForServerTargetState (Except.error ApiError.notFound404 :: rest)
        target = WaitResult.success ("DELETED") := by
  refine ⟨rfl, ?_⟩
  have ht2 : ("DELETED") ∈ target := by simpa using ht
  simp [waitForServerTargetState, ServerV1StateRefreshFunc, ht2]

/-- C10 witness: concrete instantiation with the delete-wait target set. -/
theorem serverV1StateRefresh_404_deleted_witness :
    ServerV1StateRefreshFunc (Except.error ApiError.notFound404) =
      (("DELETED"), none)
    ∧ waitForServerTargetState [Except.error ApiError.notFound404]
        [("DELETED"), ("SOFT_DELETED")] = WaitResult.success ("DELETED") :=
  serverV1StateRefresh_404_deleted [] [("DELETED"), ("SOFT_DELETED")] rfl

end HcsProvider
